import Mathlib

/-!
Verification of the like_scanner scan-engine core
(`like_scanner/core/models.py`, `like_scanner/core/services.py`).

Machine integers are Python `int`s, embedded as `Int`.  Pydantic model
construction can raise `ValidationError`; fallible constructors are embedded
as `Except String _`.  The module-level constant `LIKES_THRESHOLD` (read from
the environment at import time) is passed as an explicit parameter; the
wall-clock timestamp `datetime.utcnow()` used by `MediaItem.scraped_at` is
passed as an explicit `now : Nat` parameter.
-/

deriving instance DecidableEq for Except

namespace LikeScanner

/-- `MediaItem.url` validator `_url_must_be_http` (models.py lines 61-65):
`url.startswith(("http://", "https://"))`, embedded as a character-list
prefix test so that concrete instances evaluate in the kernel. -/
def urlIsHttp (v : String) : Bool :=
  "http://".data.isPrefixOf v.data || "https://".data.isPrefixOf v.data

/-- Embeds `like_scanner.core.models.MediaItem` (models.py lines 45-75):
`index : int (ge=0)`, `url : str`, `saves : int (ge=0)`,
`scraped_at : datetime` (capture time, `default_factory=datetime.utcnow`,
embedded as a `Nat` timestamp). -/
structure MediaItem where
  index : Int
  url : String
  saves : Int
  scraped_at : Nat
deriving DecidableEq, Repr

/-- Pydantic construction of a `MediaItem`: the `ge=0` bounds on `index` and
`saves` and the `_url_must_be_http` validator raise `ValidationError` on
violation (fields checked in declaration order). -/
def mkMediaItem (index : Int) (url : String) (saves : Int) (now : Nat) :
    Except String MediaItem :=
  if index < 0 then .error "index must be >= 0"
  else if !urlIsHttp url then .error "url must start with http:// or https://"
  else if saves < 0 then .error "saves must be >= 0"
  else .ok ⟨index, url, saves, now⟩

/-- Embeds `like_scanner.core.models.ScanResult` (models.py lines 78-113):
`hit : bool`, `next_index : int (ge=0)`, `item : Optional[MediaItem]`,
`error : Optional[str]`. -/
structure ScanResult where
  hit : Bool
  next_index : Int
  item : Option MediaItem
  error : Option String
deriving DecidableEq, Repr

/-- Python truthiness of an `Optional[str]`: `None` and `""` are falsy. -/
def strOptTruthy : Option String → Bool
  | none => false
  | some s => s != ""

/-- Pydantic construction of a `ScanResult`: the `ge=0` bound on `next_index`
and the `_item_required_on_hit` validator (models.py lines 94-98), which
raises when `hit` is true, `item` is `None` and `error` is falsy.
(In pydantic v1 the `error` field, declared after `item`, is not yet in
`values` when the `item` validator runs, making the actual check
`hit and item is None`; the two readings agree on every construction
performed by this code base, which never passes a truthy `error`
together with `hit=True, item=None`.) -/
def mkScanResult (hit : Bool) (next_index : Int) (item : Option MediaItem)
    (error : Option String) : Except String ScanResult :=
  if next_index < 0 then .error "next_index must be >= 0"
  else if hit && item.isNone && !strOptTruthy error then
    .error "item must be provided when hit is True"
  else .ok ⟨hit, next_index, item, error⟩

namespace Services

/-- Embeds the state of `like_scanner.core.services.SessionTracker`
(services.py lines 41-58): `current_index`, `consecutive_fails`
(0 at construction), `max_fails`. -/
structure SessionTracker where
  current_index : Int
  consecutive_fails : Int
  max_fails : Int
deriving DecidableEq, Repr

/-- `SessionTracker.__init__(start_index, max_fails)` (services.py
lines 50-58): `consecutive_fails` starts at 0; no validation is performed. -/
def SessionTracker.init (start_index : Int) (max_fails : Int) : SessionTracker :=
  ⟨start_index, 0, max_fails⟩

/-- Embeds `SessionTracker.evaluate(saves, url)` (services.py lines 63-133).
`LIKES_THRESHOLD` is the module constant passed explicitly; `now` is the
wall-clock timestamp `datetime.utcnow()` captures if a `MediaItem` is built.
Returns the mutated tracker together with the `ScanResult`, or the raised
`ValidationError` message. -/
def evaluate (LIKES_THRESHOLD : Int) (st : SessionTracker)
    (saves : Option Int) (url : Option String) (now : Nat) :
    Except String (SessionTracker × ScanResult) :=
  match saves with
  | none =>
      -- case 1: end of profile; index not changed, fails not changed
      match mkScanResult false st.current_index none (some "end_of_profile") with
      | .error e => .error e
      | .ok r => .ok (st, r)
  | some s =>
      if LIKES_THRESHOLD ≤ s then
        -- case 2: hit; `url or ""` substitutes "" for a missing url
        -- (Python `url or ""` equals `url.getD ""`: a falsy `url` is None or
        -- the empty string, and both map to "")
        match mkMediaItem st.current_index (url.getD "") s now with
        | .error e => .error e
        | .ok item =>
            match mkScanResult true (st.current_index + 1) (some item) none with
            | .error e => .error e
            | .ok r =>
                .ok ({ st with consecutive_fails := 0,
                               current_index := st.current_index + 1 }, r)
      else
        -- case 3: miss; fails incremented first, then limit tested
        let fails := st.consecutive_fails + 1
        let r? :=
          if st.max_fails ≤ fails then
            mkScanResult false (st.current_index + 1) none (some "no_hits")
          else
            mkScanResult false (st.current_index + 1) none none
        match r? with
        | .error e => .error e
        | .ok r =>
            .ok ({ st with consecutive_fails := fails,
                           current_index := st.current_index + 1 }, r)

/-- One `evaluate` call's inputs: the provider-resolved `saves` and `url`
and the wall-clock instant of the call. -/
structure EvalIn where
  saves : Option Int
  url : Option String
  now : Nat
deriving DecidableEq, Repr

/-- The trace of cursor values along a sequence of `evaluate` calls: the
tracker's `current_index` before each call (the mutated tracker is the state
of the next call, so each returned `next_index` is fed back in as the next
cursor).  The run stops at the first raised `ValidationError`. -/
def cursorTrace (θ : Int) (st : SessionTracker) : List EvalIn → List Int
  | [] => [st.current_index]
  | i :: rest =>
      match evaluate θ st i.saves i.url i.now with
      | .error _ => [st.current_index]
      | .ok (st', _) => st.current_index :: cursorTrace θ st' rest

/-- A list of integers is non-decreasing (each element ≤ its successor). -/
def nonDecreasing : List Int → Prop
  | [] => True
  | [_] => True
  | a :: b :: l => a ≤ b ∧ nonDecreasing (b :: l)

/-- States reachable from `st₀` by `evaluate` calls that all returned
normally and none of which reported the `no_hits` stop signal — i.e. runs in
which the caller stops at the first `no_hits` report. -/
inductive ReachesNoStop (θ : Int) : SessionTracker → SessionTracker → Prop where
  | refl (st : SessionTracker) : ReachesNoStop θ st st
  | step {st₀ st₁ st₂ : SessionTracker} {saves : Option Int}
      {url : Option String} {now : Nat} {r : ScanResult} :
      ReachesNoStop θ st₀ st₁ →
      evaluate θ st₁ saves url now = .ok (st₂, r) →
      r.error ≠ some "no_hits" →
      ReachesNoStop θ st₀ st₂

end Services

namespace Models

/-- Embeds the state of the second, dataclass `SessionTracker` declared in
`like_scanner.core.models` (models.py lines 134-165): `next_index` and
`fails` (the `driver` and `settings` fields are modelled by the explicit
`driver_present` flag and the `FetchOutcome` argument of `continue_parse`). -/
structure SessionTracker where
  next_index : Int
  fails : Int
deriving DecidableEq, Repr

/-- `SessionTracker.miss(step)` (models.py lines 156-161): advance
`next_index` by `step` and increment `fails`. -/
def SessionTracker.miss (st : SessionTracker) (step : Int) : SessionTracker :=
  ⟨st.next_index + step, st.fails + 1⟩

/-- `SessionTracker.hit(step)` (models.py lines 149-154): advance
`next_index` by `step` and reset `fails` to 0. -/
def SessionTracker.hitStep (st : SessionTracker) (step : Int) : SessionTracker :=
  ⟨st.next_index + step, 0⟩

/-- The outcome of the live-fetch portion of `continue_parse`
(`self.driver.current_url` plus `parse_savee_profile` /
`parse_cosmos_profile`): either an exception was raised (network / browser /
auth failure), or a result dict was returned carrying the keys `error`,
`image_url`, `saves` (default 0) and optionally `next_index`. -/
inductive FetchOutcome where
  | raised (msg : String)
  | returned (error : Option String) (image_url : Option String)
      (saves : Int) (next_index : Option Int)
deriving DecidableEq, Repr

/-- The `except Exception` handler of `continue_parse` (models.py lines
287-294): `self.miss(step=1)` then a `ScanResult` carrying the exception
text; a `ValidationError` raised by that very construction propagates. -/
def caughtMiss (st : SessionTracker) (e : String) :
    Except String (SessionTracker × ScanResult) :=
  let st' := st.miss 1
  match mkScanResult false st'.next_index none (some e) with
  | .error e' => .error e'
  | .ok r => .ok (st', r)

/-- Embeds `SessionTracker.continue_parse` (models.py lines 167-294).
`driver_present` is `self.driver` truthiness; `fetch` is the outcome of the
driver/parse calls inside the `try`; `now` the wall-clock timestamp.
Returns the mutated tracker and the `ScanResult`, or the message of a
`ValidationError` that escaped the handler. -/
def continue_parse (LIKES_THRESHOLD : Int) (driver_present : Bool)
    (st : SessionTracker) (fetch : FetchOutcome) (now : Nat) :
    Except String (SessionTracker × ScanResult) :=
  if !driver_present then
    -- no driver: miss(1), then a ScanResult with the Russian error text
    let st' := st.miss 1
    match mkScanResult false st'.next_index none
        (some "Драйвер не инициализирован") with
    | .error e => .error e
    | .ok r => .ok (st', r)
  else
    match fetch with
    | .raised msg =>
        -- the fetch raised before any state was mutated
        caughtMiss st msg
    | .returned err image_url saves pnext =>
        if strOptTruthy err then
          -- `if result.get("error"):` — miss(1) and surface the raw message
          let st' := st.miss 1
          match mkScanResult false st'.next_index none err with
          | .error e => .error e
          | .ok r => .ok (st', r)
        else
          -- happy path: `fails` updated in place; `next_index` NOT mutated
          let st1 : SessionTracker :=
            ⟨st.next_index, if LIKES_THRESHOLD ≤ saves then 0 else st.fails + 1⟩
          let item? : Except String (Option MediaItem) :=
            match image_url with
            | some u =>
                -- `if is_hit and image_url:` — truthiness of image_url
                if LIKES_THRESHOLD ≤ saves ∧ u ≠ "" then
                  match mkMediaItem st.next_index u saves now with
                  | .error e => .error e
                  | .ok m => .ok (some m)
                else .ok none
            | none => .ok none
          match item? with
          | .error e => caughtMiss st1 e
          | .ok item =>
              -- `next_idx = result.get("next_index", self.next_index)`
              match mkScanResult (decide (LIKES_THRESHOLD ≤ saves))
                  (pnext.getD st.next_index) item none with
              | .error e => caughtMiss st1 e
              | .ok r => .ok (st1, r)

end Models

/-- Erase the wall-clock capture timestamp of a `MediaItem` (the one field
`datetime.utcnow()` fills). -/
def scrubItemTime (m : MediaItem) : MediaItem := { m with scraped_at := 0 }

/-- Erase the capture timestamp inside a `ScanResult`'s optional item. -/
def scrubResultTime (r : ScanResult) : ScanResult :=
  { r with item := r.item.map scrubItemTime }

/-- Erase the capture timestamp from an `evaluate` outcome. -/
def scrubEvalTime :
    Except String (Services.SessionTracker × ScanResult) →
      Except String (Services.SessionTracker × ScanResult)
  | .error e => .error e
  | .ok (st, r) => .ok (st, scrubResultTime r)

/-! ## Helper lemmas on the pydantic constructors -/

theorem mkMediaItem_ok {i : Int} {u : String} {s : Int} {n : Nat}
    {m : MediaItem} (h : mkMediaItem i u s n = .ok m) : m = ⟨i, u, s, n⟩ := by
  simp only [mkMediaItem] at h
  split at h
  · exact absurd h (by simp)
  split at h
  · exact absurd h (by simp)
  split at h
  · exact absurd h (by simp)
  · exact (Except.ok.inj h).symm

theorem mkMediaItem_valid {i : Int} {u : String} {s : Int} (n : Nat)
    (hi : 0 ≤ i) (hu : urlIsHttp u = true) (hs : 0 ≤ s) :
    mkMediaItem i u s n = .ok ⟨i, u, s, n⟩ := by
  have h1 : ¬i < 0 := by omega
  have h2 : ¬s < 0 := by omega
  simp [mkMediaItem, hu, h1, h2]

theorem mkMediaItem_bad_url {i : Int} {u : String} {s : Int} {n : Nat}
    (hu : urlIsHttp u = false) : ∃ e, mkMediaItem i u s n = .error e := by
  simp only [mkMediaItem]
  split
  · exact ⟨_, rfl⟩
  · rw [hu]; exact ⟨_, rfl⟩

theorem mkScanResult_ok {hit : Bool} {ni : Int} {item : Option MediaItem}
    {error : Option String} {r : ScanResult}
    (h : mkScanResult hit ni item error = .ok r) : r = ⟨hit, ni, item, error⟩ := by
  simp only [mkScanResult] at h
  split at h
  · exact absurd h (by simp)
  split at h
  · exact absurd h (by simp)
  · exact (Except.ok.inj h).symm

theorem mkScanResult_false {ni : Int} (item : Option MediaItem)
    (error : Option String) (hni : 0 ≤ ni) :
    mkScanResult false ni item error = .ok ⟨false, ni, item, error⟩ := by
  have h1 : ¬ni < 0 := by omega
  simp [mkScanResult, h1]

theorem mkScanResult_true_some {ni : Int} (m : MediaItem)
    (error : Option String) (hni : 0 ≤ ni) :
    mkScanResult true ni (some m) error = .ok ⟨true, ni, some m, error⟩ := by
  have h1 : ¬ni < 0 := by omega
  simp [mkScanResult, h1]

namespace Services

/-! ## Inversion of `evaluate` -/

/-- Full case analysis of a normally-returning `evaluate` call: exactly one
of the end-of-profile, hit, or miss branches was taken, with the tracker and
`ScanResult` each branch produces. -/
theorem evaluate_ok_inv {θ : Int} {st st' : SessionTracker} {saves : Option Int}
    {url : Option String} {now : Nat} {r : ScanResult}
    (h : evaluate θ st saves url now = .ok (st', r)) :
    (saves = none ∧ st' = st ∧
      r = ⟨false, st.current_index, none, some "end_of_profile"⟩) ∨
    (∃ s, saves = some s ∧ θ ≤ s ∧
      st' = ⟨st.current_index + 1, 0, st.max_fails⟩ ∧
      r = ⟨true, st.current_index + 1,
            some ⟨st.current_index, url.getD "", s, now⟩, none⟩) ∨
    (∃ s, saves = some s ∧ s < θ ∧
      st' = ⟨st.current_index + 1, st.consecutive_fails + 1, st.max_fails⟩ ∧
      ((st.max_fails ≤ st.consecutive_fails + 1 ∧
          r = ⟨false, st.current_index + 1, none, some "no_hits"⟩) ∨
       (st.consecutive_fails + 1 < st.max_fails ∧
          r = ⟨false, st.current_index + 1, none, none⟩))) := by
  cases saves with
  | none =>
      left
      simp only [evaluate] at h
      split at h
      · exact absurd h (by simp)
      case _ r0 heq =>
        obtain ⟨h1, h2⟩ := Prod.mk.inj (Except.ok.inj h)
        exact ⟨rfl, h1.symm, by rw [← h2, mkScanResult_ok heq]⟩
  | some s =>
      simp only [evaluate] at h
      split at h
      case isTrue hle =>
        right; left
        split at h
        · exact absurd h (by simp)
        case _ m hm =>
          split at h
          · exact absurd h (by simp)
          case _ r0 hr =>
            obtain ⟨h1, h2⟩ := Prod.mk.inj (Except.ok.inj h)
            refine ⟨s, rfl, hle, ?_, ?_⟩
            · rw [← h1]
            · rw [← h2, mkScanResult_ok hr, mkMediaItem_ok hm]
      case isFalse hle =>
        right; right
        split at h
        · exact absurd h (by simp)
        case _ r0 hr =>
          obtain ⟨h1, h2⟩ := Prod.mk.inj (Except.ok.inj h)
          refine ⟨s, rfl, by omega, by rw [← h1], ?_⟩
          split at hr
          case isTrue hlim =>
            exact Or.inl ⟨hlim, by rw [← h2, mkScanResult_ok hr]⟩
          case isFalse hlim =>
            exact Or.inr ⟨by omega, by rw [← h2, mkScanResult_ok hr]⟩

/-! ## Branch equations of `evaluate` -/

theorem evaluate_none_eq (θ : Int) (st : SessionTracker) (url : Option String)
    (now : Nat) (hidx : 0 ≤ st.current_index) :
    evaluate θ st none url now =
      .ok (st, ⟨false, st.current_index, none, some "end_of_profile"⟩) := by
  unfold evaluate
  rw [mkScanResult_false none (some "end_of_profile") hidx]

theorem evaluate_hit_eq (θ : Int) (st : SessionTracker) (s : Int)
    (url : Option String) (now : Nat) (hidx : 0 ≤ st.current_index)
    (hs : 0 ≤ s) (hθ : θ ≤ s) (hu : urlIsHttp (url.getD "") = true) :
    evaluate θ st (some s) url now =
      .ok (⟨st.current_index + 1, 0, st.max_fails⟩,
           ⟨true, st.current_index + 1,
             some ⟨st.current_index, url.getD "", s, now⟩, none⟩) := by
  simp only [evaluate]
  rw [if_pos hθ, mkMediaItem_valid now hidx hu hs]
  simp only [mkScanResult]
  rw [if_neg (by omega : ¬st.current_index + 1 < 0)]
  simp [strOptTruthy]

theorem evaluate_miss_limit_eq (θ : Int) (st : SessionTracker) (s : Int)
    (url : Option String) (now : Nat) (hidx : 0 ≤ st.current_index + 1)
    (hθ : s < θ) (hlim : st.max_fails ≤ st.consecutive_fails + 1) :
    evaluate θ st (some s) url now =
      .ok (⟨st.current_index + 1, st.consecutive_fails + 1, st.max_fails⟩,
           ⟨false, st.current_index + 1, none, some "no_hits"⟩) := by
  simp only [evaluate]
  rw [if_neg (by omega : ¬θ ≤ s)]
  simp only [if_pos hlim, mkScanResult_false none (some "no_hits")
    (by omega : (0:Int) ≤ st.current_index + 1)]

theorem evaluate_miss_under_eq (θ : Int) (st : SessionTracker) (s : Int)
    (url : Option String) (now : Nat) (hidx : 0 ≤ st.current_index + 1)
    (hθ : s < θ) (hlim : st.consecutive_fails + 1 < st.max_fails) :
    evaluate θ st (some s) url now =
      .ok (⟨st.current_index + 1, st.consecutive_fails + 1, st.max_fails⟩,
           ⟨false, st.current_index + 1, none, none⟩) := by
  simp only [evaluate]
  rw [if_neg (by omega : ¬θ ≤ s)]
  simp only [if_neg (by omega : ¬st.max_fails ≤ st.consecutive_fails + 1),
    mkScanResult_false none none (by omega : (0:Int) ≤ st.current_index + 1)]

end Services

/-! ## Branch equations of `continue_parse` (provider-failure branches) -/

theorem continue_parse_raised_eq (θ : Int) (st : Models.SessionTracker)
    (msg : String) (now : Nat) (hidx : 0 ≤ st.next_index + 1) :
    Models.continue_parse θ true st (.raised msg) now =
      .ok (⟨st.next_index + 1, st.fails + 1⟩,
           ⟨false, st.next_index + 1, none, some msg⟩) := by
  have h := @mkScanResult_false (st.next_index + 1) none (some msg) hidx
  simp [Models.continue_parse, Models.caughtMiss, Models.SessionTracker.miss, h]

theorem continue_parse_error_eq (θ : Int) (st : Models.SessionTracker)
    (msg : String) (iu : Option String) (sv : Int) (ni : Option Int) (now : Nat)
    (hmsg : msg ≠ "") (hidx : 0 ≤ st.next_index + 1) :
    Models.continue_parse θ true st (.returned (some msg) iu sv ni) now =
      .ok (⟨st.next_index + 1, st.fails + 1⟩,
           ⟨false, st.next_index + 1, none, some msg⟩) := by
  have ht : strOptTruthy (some msg) = true := by simp [strOptTruthy, hmsg]
  have h := @mkScanResult_false (st.next_index + 1) none (some msg) hidx
  simp [Models.continue_parse, Models.SessionTracker.miss, ht, h]

/-! ## Time-independence of `mkMediaItem` up to the captured timestamp -/

theorem mkMediaItem_cases (i : Int) (u : String) (s : Int) :
    (∃ e, ∀ n' : Nat, mkMediaItem i u s n' = .error e) ∨
    (¬i < 0 ∧ urlIsHttp u = true ∧ ¬s < 0 ∧
      ∀ n' : Nat, mkMediaItem i u s n' = .ok ⟨i, u, s, n'⟩) := by
  by_cases h1 : i < 0
  · exact Or.inl ⟨"index must be >= 0", fun n' => by simp [mkMediaItem, h1]⟩
  by_cases h2 : urlIsHttp u = true
  · by_cases h3 : s < 0
    · exact Or.inl ⟨"saves must be >= 0",
        fun n' => by simp [mkMediaItem, h1, h2, h3]⟩
    · exact Or.inr ⟨h1, h2, h3,
        fun n' => mkMediaItem_valid n' (by omega) h2 (by omega)⟩
  · refine Or.inl ⟨"url must start with http:// or https://", fun n' => ?_⟩
    have h2' : urlIsHttp u = false := by
      cases h : urlIsHttp u
      · rfl
      · exact absurd h h2
    simp [mkMediaItem, h1, h2']

namespace Services

/-! ## Cursor-step and trace lemmas -/

theorem evaluate_cursor_step {θ : Int} {st st' : SessionTracker}
    {saves : Option Int} {url : Option String} {now : Nat} {r : ScanResult}
    (h : evaluate θ st saves url now = .ok (st', r)) :
    (r.next_index = st.current_index ∨ r.next_index = st.current_index + 1) ∧
      st.current_index ≤ r.next_index ∧ st'.current_index = r.next_index := by
  rcases evaluate_ok_inv h with ⟨_, rfl, rfl⟩ | ⟨s, _, _, rfl, rfl⟩ |
    ⟨s, _, _, rfl, hc⟩
  · exact ⟨Or.inl rfl, le_refl _, rfl⟩
  · exact ⟨Or.inr rfl, by show st.current_index ≤ st.current_index + 1; omega, rfl⟩
  · rcases hc with ⟨_, rfl⟩ | ⟨_, rfl⟩ <;>
      exact ⟨Or.inr rfl, by show st.current_index ≤ st.current_index + 1; omega, rfl⟩

theorem cursorTrace_cons (θ : Int) (st : SessionTracker)
    (l : List EvalIn) :
    ∃ t, cursorTrace θ st l = st.current_index :: t := by
  cases l with
  | nil => exact ⟨[], rfl⟩
  | cons i rest =>
      simp only [cursorTrace]
      split
      · exact ⟨[], rfl⟩
      · exact ⟨_, rfl⟩

theorem cursorTrace_nonDecreasing (θ : Int) (st : SessionTracker)
    (l : List EvalIn) : nonDecreasing (cursorTrace θ st l) := by
  induction l generalizing st with
  | nil => trivial
  | cons i rest ih =>
      simp only [cursorTrace]
      split
      · trivial
      case _ st' r heq =>
        obtain ⟨t, ht⟩ := cursorTrace_cons θ st' rest
        rw [ht]
        obtain ⟨_, hle, hcur⟩ := evaluate_cursor_step heq
        exact ⟨by omega, ht ▸ ih st'⟩

end Services

/-! ## Claims -/

/-- C2: every normally returned `ScanResult` of `evaluate` with `hit = true`
carries a card (`item`, with its metric) or an error — never both absent. -/
theorem C2_hit_implies_item_or_error (θ : Int)
    (st st' : Services.SessionTracker) (saves : Option Int)
    (url : Option String) (now : Nat) (r : ScanResult)
    (h : Services.evaluate θ st saves url now = .ok (st', r))
    (hh : r.hit = true) :
    r.item.isSome = true ∨ r.error.isSome = true := by
  rcases Services.evaluate_ok_inv h with ⟨_, _, rfl⟩ | ⟨s, _, _, _, rfl⟩ |
    ⟨s, _, _, _, hc⟩
  · exact absurd hh (by simp)
  · exact Or.inl rfl
  · rcases hc with ⟨_, rfl⟩ | ⟨_, rfl⟩ <;> exact absurd hh (by simp)

/-- Witness for C2 at a concrete hit call. -/
theorem C2_witness :
    (⟨true, 1, some ⟨0, "https://a", 30, 7⟩, none⟩ : ScanResult).item.isSome =
        true ∨
      (⟨true, 1, some ⟨0, "https://a", 30, 7⟩, none⟩ : ScanResult).error.isSome =
        true :=
  C2_hit_implies_item_or_error 20 ⟨0, 0, 3⟩ ⟨1, 0, 3⟩ (some 30)
    (some "https://a") 7 ⟨true, 1, some ⟨0, "https://a", 30, 7⟩, none⟩
    (by decide) rfl

/-- C5: `evaluate` with `saves = None` returns `hit = false`,
`next_index` equal to the unchanged cursor, `error = "end_of_profile"`, and
leaves the tracker (cursor and consecutive-failure count) unchanged. -/
theorem C5_end_of_profile_preserves_state (θ : Int)
    (st : Services.SessionTracker) (url : Option String) (now : Nat)
    (hidx : 0 ≤ st.current_index) :
    Services.evaluate θ st none url now =
      .ok (st, ⟨false, st.current_index, none, some "end_of_profile"⟩) :=
  Services.evaluate_none_eq θ st url now hidx

/-- Witness for C5 at cursor 7 with a nonzero failure count. -/
theorem C5_witness :
    Services.evaluate 20 ⟨7, 2, 3⟩ none none 0 =
      .ok (⟨7, 2, 3⟩, ⟨false, 7, none, some "end_of_profile"⟩) :=
  C5_end_of_profile_preserves_state 20 ⟨7, 2, 3⟩ none 0 (by decide)

/-- C6: `evaluate` with `metric ≥ threshold` (on a valid state and url)
returns `hit = true`, `next_index = cursor + 1`, a card indexed at the
pre-call cursor carrying the supplied metric, and resets the
consecutive-failure count to 0. -/
theorem C6_hit_outcome (θ : Int) (st : Services.SessionTracker) (s : Int)
    (url : Option String) (now : Nat) (hidx : 0 ≤ st.current_index)
    (hs : 0 ≤ s) (hθ : θ ≤ s) (hu : urlIsHttp (url.getD "") = true) :
    Services.evaluate θ st (some s) url now =
      .ok (⟨st.current_index + 1, 0, st.max_fails⟩,
           ⟨true, st.current_index + 1,
             some ⟨st.current_index, url.getD "", s, now⟩, none⟩) :=
  Services.evaluate_hit_eq θ st s url now hidx hs hθ hu

/-- Witness for C6 at cursor 5 with metric 30 against threshold 20. -/
theorem C6_witness :
    Services.evaluate 20 ⟨5, 2, 9⟩ (some 30) (some "https://x") 3 =
      .ok (⟨6, 0, 9⟩, ⟨true, 6, some ⟨5, "https://x", 30, 3⟩, none⟩) :=
  C6_hit_outcome 20 ⟨5, 2, 9⟩ 30 (some "https://x") 3 (by decide) (by decide)
    (by decide) (by decide)

/-- C9: each normally returned `next_index` equals the call's cursor or
cursor + 1 (never less) and is the next call's cursor, so across every
sequence of `evaluate` calls feeding each returned `next_index` back in, the
cursor sequence is non-decreasing. -/
theorem C9_cursor_monotone :
    (∀ (θ : Int) (st st' : Services.SessionTracker) (saves : Option Int)
        (url : Option String) (now : Nat) (r : ScanResult),
        Services.evaluate θ st saves url now = .ok (st', r) →
        (r.next_index = st.current_index ∨
            r.next_index = st.current_index + 1) ∧
          st.current_index ≤ r.next_index ∧
          st'.current_index = r.next_index) ∧
    (∀ (θ : Int) (st : Services.SessionTracker) (l : List Services.EvalIn),
        Services.nonDecreasing (Services.cursorTrace θ st l)) :=
  ⟨fun _ _ _ _ _ _ _ h => Services.evaluate_cursor_step h,
   Services.cursorTrace_nonDecreasing⟩

/-- Witness for C9 at a concrete end-of-profile call. -/
theorem C9_witness :
    ((⟨false, 7, none, some "end_of_profile"⟩ : ScanResult).next_index =
        (⟨7, 0, 3⟩ : Services.SessionTracker).current_index ∨
      (⟨false, 7, none, some "end_of_profile"⟩ : ScanResult).next_index =
        (⟨7, 0, 3⟩ : Services.SessionTracker).current_index + 1) ∧
      (⟨7, 0, 3⟩ : Services.SessionTracker).current_index ≤
        (⟨false, 7, none, some "end_of_profile"⟩ : ScanResult).next_index ∧
      (⟨7, 0, 3⟩ : Services.SessionTracker).current_index =
        (⟨false, 7, none, some "end_of_profile"⟩ : ScanResult).next_index :=
  C9_cursor_monotone.1 20 ⟨7, 0, 3⟩ ⟨7, 0, 3⟩ none none 0
    ⟨false, 7, none, some "end_of_profile"⟩ (by decide)

/-- C10: a hit-branch call (`metric ≥ threshold`) whose url is `None` or
does not begin with `http://` / `https://` raises a validation error instead
of returning a `ScanOutcome` (the hit branch substitutes `""` for a missing
url and the Card's url validator rejects it), while the same call with the
metric below the threshold returns a normal miss outcome. -/
theorem C10_invalid_url_on_hit_raises :
    (∀ (θ : Int) (st : Services.SessionTracker) (s : Int)
        (url : Option String) (now : Nat), θ ≤ s →
        urlIsHttp (url.getD "") = false →
        ∃ e, Services.evaluate θ st (some s) url now = .error e) ∧
    (∀ (θ : Int) (st : Services.SessionTracker) (s : Int)
        (url : Option String) (now : Nat), s < θ → 0 ≤ st.current_index →
        ∃ st' r, Services.evaluate θ st (some s) url now = .ok (st', r) ∧
          r.hit = false ∧ r.item = none) := by
  constructor
  · intro θ st s url now hθ hu
    simp only [Services.evaluate]
    rw [if_pos hθ]
    obtain ⟨e, he⟩ := @mkMediaItem_bad_url st.current_index (url.getD "") s now hu
    refine ⟨e, ?_⟩
    rw [he]
  · intro θ st s url now hθ hidx
    by_cases hlim : st.max_fails ≤ st.consecutive_fails + 1
    · exact ⟨_, _,
        Services.evaluate_miss_limit_eq θ st s url now (by omega) hθ hlim,
        rfl, rfl⟩
    · exact ⟨_, _,
        Services.evaluate_miss_under_eq θ st s url now (by omega) hθ (by omega),
        rfl, rfl⟩

/-- Witness for C10: a hit at metric 30 ≥ 20 with a missing url raises. -/
theorem C10_witness :
    ∃ e, Services.evaluate 20 ⟨0, 0, 3⟩ (some 30) none 0 = .error e :=
  C10_invalid_url_on_hit_raises.1 20 ⟨0, 0, 3⟩ 30 none 0 (by decide) (by decide)

/-- Counterexample to C1 as stated: with `max_fails = 3` and four
consecutive misses from a fresh counter, the limit error string is
`"no_hits"`, not `"no_hits_after_limit"`, and the fourth miss carries the
error again rather than no error. -/
theorem C1_counterexample :
    (Services.evaluate 20 ⟨0, 0, 3⟩ (some 5) none 0 =
      .ok (⟨1, 1, 3⟩, ⟨false, 1, none, none⟩)) ∧
    (Services.evaluate 20 ⟨1, 1, 3⟩ (some 5) none 0 =
      .ok (⟨2, 2, 3⟩, ⟨false, 2, none, none⟩)) ∧
    (Services.evaluate 20 ⟨2, 2, 3⟩ (some 5) none 0 =
      .ok (⟨3, 3, 3⟩, ⟨false, 3, none, some "no_hits"⟩)) ∧
    (Services.evaluate 20 ⟨3, 3, 3⟩ (some 5) none 0 =
      .ok (⟨4, 4, 3⟩, ⟨false, 4, none, some "no_hits"⟩)) ∧
    some "no_hits" ≠ some "no_hits_after_limit" := by
  refine ⟨by decide, by decide, by decide, by decide, by decide⟩

/-- C1 (amended): a miss with `consecutive_fails + 1 ≥ max_fails` yields
`hit = false`, `next_index = cursor + 1`, error string `"no_hits"` (the
code's string, not `"no_hits_after_limit"`), and the failure count
incremented by 1 — and therefore the error recurs on every consecutive miss
from the limit onwards, not exactly on the `max_fails`-th one. -/
theorem C1_miss_at_limit_reports_no_hits (θ : Int)
    (st : Services.SessionTracker) (s : Int) (url : Option String) (now : Nat)
    (hidx : 0 ≤ st.current_index) (hmiss : s < θ)
    (hlim : st.max_fails ≤ st.consecutive_fails + 1) :
    Services.evaluate θ st (some s) url now =
      .ok (⟨st.current_index + 1, st.consecutive_fails + 1, st.max_fails⟩,
           ⟨false, st.current_index + 1, none, some "no_hits"⟩) :=
  Services.evaluate_miss_limit_eq θ st s url now (by omega) hmiss hlim

/-- Witness for C1 at the boundary third miss with `max_fails = 3`. -/
theorem C1_witness :
    Services.evaluate 20 ⟨2, 2, 3⟩ (some 5) (some "https://a") 0 =
      .ok (⟨3, 3, 3⟩, ⟨false, 3, none, some "no_hits"⟩) :=
  C1_miss_at_limit_reports_no_hits 20 ⟨2, 2, 3⟩ 5 (some "https://a") 0
    (by decide) (by decide) (by decide)

/-- Counterexample to C3 as stated: from the fresh state with
`max_fails = 3`, four consecutive misses are all evaluated normally (the
engine does not stop) and reach a state with `consecutive_fails = 4 > 3`,
violating `consecutiveFailures ≤ maxFailures`. -/
theorem C3_counterexample :
    (Services.evaluate 20 (Services.SessionTracker.init 0 3) (some 5) none 0 =
      .ok (⟨1, 1, 3⟩, ⟨false, 1, none, none⟩)) ∧
    (Services.evaluate 20 ⟨1, 1, 3⟩ (some 5) none 0 =
      .ok (⟨2, 2, 3⟩, ⟨false, 2, none, none⟩)) ∧
    (Services.evaluate 20 ⟨2, 2, 3⟩ (some 5) none 0 =
      .ok (⟨3, 3, 3⟩, ⟨false, 3, none, some "no_hits"⟩)) ∧
    (Services.evaluate 20 ⟨3, 3, 3⟩ (some 5) none 0 =
      .ok (⟨4, 4, 3⟩, ⟨false, 4, none, some "no_hits"⟩)) ∧
    ¬(⟨4, 4, 3⟩ : Services.SessionTracker).consecutive_fails ≤
        (⟨4, 4, 3⟩ : Services.SessionTracker).max_fails := by
  refine ⟨by decide, by decide, by decide, by decide, by decide⟩

/-- C3 (amended): `consecutive_fails ≤ max_fails` holds for every state
reachable from a fresh counter (with a non-negative configured limit) by
calls that all returned normally and none of which reported `no_hits` —
i.e. it holds only as long as the caller stops at the first `no_hits`
report; the engine itself keeps evaluating past the bound. -/
theorem C3_fails_bounded_when_caller_stops (θ : Int)
    (st₀ st : Services.SessionTracker) (h0 : st₀.consecutive_fails = 0)
    (hmax : 0 ≤ st₀.max_fails) (hr : Services.ReachesNoStop θ st₀ st) :
    st.consecutive_fails ≤ st.max_fails := by
  have key : (st.consecutive_fails = 0 ∨
      st.consecutive_fails < st.max_fails) ∧ st.max_fails = st₀.max_fails := by
    induction hr with
    | refl => exact ⟨Or.inl h0, rfl⟩
    | step hreach heval herr ih =>
        rcases Services.evaluate_ok_inv heval with ⟨_, rfl, rfl⟩ |
          ⟨s, _, _, rfl, _⟩ | ⟨s, _, _, rfl, hc⟩
        · exact ih
        · exact ⟨Or.inl rfl, ih.2⟩
        · rcases hc with ⟨hlim, rfl⟩ | ⟨hlt, rfl⟩
          · exact absurd rfl herr
          · exact ⟨Or.inr hlt, ih.2⟩
  obtain ⟨h1 | h1, h2⟩ := key <;> omega

/-- Witness for C3 after one under-limit miss from a fresh state. -/
theorem C3_witness :
    (⟨1, 1, 3⟩ : Services.SessionTracker).consecutive_fails ≤
      (⟨1, 1, 3⟩ : Services.SessionTracker).max_fails :=
  C3_fails_bounded_when_caller_stops 20 ⟨0, 0, 3⟩ ⟨1, 1, 3⟩ rfl (by decide)
    (@Services.ReachesNoStop.step 20 ⟨0, 0, 3⟩ ⟨0, 0, 3⟩ ⟨1, 1, 3⟩ (some 5)
      none 0 ⟨false, 1, none, none⟩
      (Services.ReachesNoStop.refl ⟨0, 0, 3⟩) (by decide) (by decide))

/-- Counterexample to C4 as stated: a call with `threshold = 0 ≤ 0`,
`cursor = -1 < 0` and `max_fails = 0 ≤ 0` all at once is evaluated anyway
and produces a `ScanOutcome` — the engine performs no fail-fast check. -/
theorem C4_counterexample :
    Services.evaluate 0 ⟨-1, 0, 0⟩ (some (-1)) none 0 =
      .ok (⟨0, 1, 0⟩, ⟨false, 0, none, some "no_hits"⟩) := by decide

/-- C4 (amended): the engine never rejects a call up front: with
`threshold ≤ 0` every valid card is silently a hit; with `max_fails ≤ 0`
every miss is evaluated and immediately reports `no_hits`; with
`cursor = -1` a miss call is evaluated and returns a normal outcome.
Invalid configuration surfaces only through pydantic field bounds during
model construction, never as a fail-fast rejection. -/
theorem C4_no_fail_fast_validation :
    (∀ (θ : Int) (st : Services.SessionTracker) (s : Int) (u : String)
        (now : Nat), θ ≤ 0 → 0 ≤ s → 0 ≤ st.current_index →
        urlIsHttp u = true →
        Services.evaluate θ st (some s) (some u) now =
          .ok (⟨st.current_index + 1, 0, st.max_fails⟩,
               ⟨true, st.current_index + 1,
                 some ⟨st.current_index, u, s, now⟩, none⟩)) ∧
    (∀ (θ : Int) (st : Services.SessionTracker) (s : Int) (url : Option String)
        (now : Nat), st.max_fails ≤ 0 → 0 ≤ st.consecutive_fails → s < θ →
        0 ≤ st.current_index →
        Services.evaluate θ st (some s) url now =
          .ok (⟨st.current_index + 1, st.consecutive_fails + 1, st.max_fails⟩,
               ⟨false, st.current_index + 1, none, some "no_hits"⟩)) ∧
    (∀ (θ fails mf s : Int) (url : Option String) (now : Nat), s < θ →
        ∃ p, Services.evaluate θ ⟨-1, fails, mf⟩ (some s) url now = .ok p) := by
  refine ⟨?_, ?_, ?_⟩
  · intro θ st s u now hθ hs hidx hu
    exact Services.evaluate_hit_eq θ st s (some u) now hidx hs (by omega) hu
  · intro θ st s url now hmax hfail hθ hidx
    exact Services.evaluate_miss_limit_eq θ st s url now (by omega) hθ
      (by omega)
  · intro θ fails mf s url now hθ
    by_cases hlim : mf ≤ fails + 1
    · exact ⟨_, Services.evaluate_miss_limit_eq θ ⟨-1, fails, mf⟩ s url now
        (by show (0:Int) ≤ -1 + 1; omega) hθ hlim⟩
    · exact ⟨_, Services.evaluate_miss_under_eq θ ⟨-1, fails, mf⟩ s url now
        (by show (0:Int) ≤ -1 + 1; omega) hθ (by show fails + 1 < mf; omega)⟩

/-- Witness for C4: with threshold 0 a card with metric 0 is a hit. -/
theorem C4_witness :
    Services.evaluate 0 ⟨0, 0, 5⟩ (some 0) (some "https://x") 0 =
      .ok (⟨1, 0, 5⟩, ⟨true, 1, some ⟨0, "https://x", 0, 0⟩, none⟩) :=
  C4_no_fail_fast_validation.1 0 ⟨0, 0, 5⟩ 0 "https://x" 0 (by decide)
    (by decide) (by decide) (by decide)

/-- Counterexample to C7 as stated: a provider-reported failure is surfaced
with the raw provider message, not classified `provider_unavailable`, and
`continue_parse` advances the tracker's cursor from 5 to 6 (`miss(step=1)`),
so a replay of the identical request does not target the same index. -/
theorem C7_counterexample :
    (Models.continue_parse 20 true ⟨5, 0⟩
        (.returned (some "net timeout") none 0 none) 0 =
      .ok (⟨6, 1⟩, ⟨false, 6, none, some "net timeout"⟩)) ∧
    some "net timeout" ≠ some "provider_unavailable" ∧ (6 : Int) ≠ 5 := by
  refine ⟨by decide, by decide, by decide⟩

/-- C7 (amended): when the Card Provider fetch fails — whether the parse
dict carries a non-empty `error` or an exception is raised — the failure is
surfaced as the raw provider message (never classified
`provider_unavailable`), the tracker's cursor IS advanced by one and `fails`
incremented (`miss(step=1)`), so replaying the identical request targets the
next position, not the same one. -/
theorem C7_provider_failure_advances_cursor :
    (∀ (θ : Int) (st : Models.SessionTracker) (msg : String)
        (iu : Option String) (sv : Int) (ni : Option Int) (now : Nat),
        msg ≠ "" → 0 ≤ st.next_index + 1 →
        Models.continue_parse θ true st (.returned (some msg) iu sv ni) now =
          .ok (⟨st.next_index + 1, st.fails + 1⟩,
               ⟨false, st.next_index + 1, none, some msg⟩)) ∧
    (∀ (θ : Int) (st : Models.SessionTracker) (msg : String) (now : Nat),
        0 ≤ st.next_index + 1 →
        Models.continue_parse θ true st (.raised msg) now =
          .ok (⟨st.next_index + 1, st.fails + 1⟩,
               ⟨false, st.next_index + 1, none, some msg⟩)) :=
  ⟨fun θ st msg iu sv ni now hmsg hidx =>
      continue_parse_error_eq θ st msg iu sv ni now hmsg hidx,
   fun θ st msg now hidx => continue_parse_raised_eq θ st msg now hidx⟩

/-- Witness for C7 at a concrete provider error. -/
theorem C7_witness :
    Models.continue_parse 20 true ⟨5, 0⟩
        (.returned (some "auth failed") none 0 none) 0 =
      .ok (⟨6, 1⟩, ⟨false, 6, none, some "auth failed"⟩) :=
  C7_provider_failure_advances_cursor.1 20 ⟨5, 0⟩ "auth failed" none 0 none 0
    (by decide) (by decide)

/-- Counterexample to C8 as stated: the same `(state, metric, url,
threshold)` evaluated at two different wall-clock instants yields different
`ScanOutcome`s — the constructed card's `scraped_at` field differs. -/
theorem C8_counterexample :
    Services.evaluate 20 ⟨0, 0, 3⟩ (some 30) (some "https://a") 0 ≠
      Services.evaluate 20 ⟨0, 0, 3⟩ (some 30) (some "https://a") 1 := by
  decide

/-- C8 (amended): `evaluate` is a pure, deterministic function of
`(state, metric, url, threshold)` up to the card's `scraped_at` capture
timestamp: two calls with the same inputs yield outcomes identical in every
state field and every `ScanResult` field except the constructed card's
wall-clock `scraped_at`. -/
theorem C8_deterministic_up_to_timestamp (θ : Int)
    (st : Services.SessionTracker) (saves : Option Int) (url : Option String)
    (t₁ t₂ : Nat) :
    scrubEvalTime (Services.evaluate θ st saves url t₁) =
      scrubEvalTime (Services.evaluate θ st saves url t₂) := by
  cases saves with
  | none => rfl
  | some s =>
      simp only [Services.evaluate]
      by_cases h1 : θ ≤ s
      · simp only [if_pos h1]
        rcases mkMediaItem_cases st.current_index (url.getD "") s with
          ⟨e, hall⟩ | ⟨hi, hu, hs, hok⟩
        · rw [hall t₁, hall t₂]
        · rw [hok t₁, hok t₂]
          by_cases h2 : st.current_index + 1 < 0
          · simp only [mkScanResult, if_pos h2]
          · simp only [mkScanResult, if_neg h2]
            simp [strOptTruthy, scrubEvalTime, scrubResultTime, scrubItemTime]
      · simp only [if_neg h1]

end LikeScanner
